import Mathlib

/-!
Shallow embedding of `src/main.rs` of the dnsspeedtest repository.

Durations are modelled as exact rationals in milliseconds (the Rust code
uses `std::time::Duration` and `f64` seconds; we use `ℚ` so arithmetic is
exact).  Network outcomes (the TCP probe of `measure_latency` and the DNS
lookup of `resolver.lookup_ip`) are external; they are supplied by an
oracle mapping each (round, domain-index) iteration to its outcome.
-/

namespace DnsSpeedTest

/-- Mirrors `struct DnsProvider` (main.rs lines 11-14). -/
structure DnsProvider where
  name : String
  ip : String
deriving DecidableEq, Repr

/-- Mirrors `DNS_PROVIDERS` (main.rs lines 16-26). -/
def DNS_PROVIDERS : List DnsProvider :=
  [⟨"Google", "8.8.8.8"⟩, ⟨"Cloudflare", "1.1.1.1"⟩, ⟨"Quad9", "9.9.9.9"⟩,
   ⟨"OpenDNS", "208.67.222.222"⟩, ⟨"AdGuard", "94.140.14.14"⟩,
   ⟨"Mullvad", "194.242.2.2"⟩, ⟨"DNS0", "193.110.81.0"⟩,
   ⟨"NextDNS", "45.90.28.0"⟩, ⟨"ControlD", "76.76.2.0"⟩]

/-- Mirrors `TEST_DOMAINS` (main.rs lines 28-39). -/
def TEST_DOMAINS : List String :=
  ["google.com", "gitlab.com", "cloudflare.com", "microsoft.com", "github.com",
   "netflix.com", "amazon.com", "facebook.com", "wikipedia.org", "reddit.com"]

/-- Mirrors `TEST_ROUNDS` (main.rs line 41). -/
def TEST_ROUNDS : Nat := 5

/-- Mirrors `TIMEOUT_SECS` (main.rs line 42). -/
def TIMEOUT_SECS : Nat := 3

/-- The sentinel latency `Duration::from_secs(TIMEOUT_SECS)`, in milliseconds
(main.rs lines 136, 139, 140, 144). -/
def timeoutSentinel : ℚ := (TIMEOUT_SECS : ℚ) * 1000

/-- Mirrors `struct TestResult` (main.rs lines 45-54); latencies in ms. -/
structure TestResult where
  provider : String
  avg_duration : ℚ
  min_latency : ℚ
  max_latency : ℚ
  success_rate : ℚ
  failed_domains : List String
  median_duration : ℚ
deriving DecidableEq, Repr

/-- Outcome of one (round, domain) iteration of the query loop: the TCP probe
`measure_latency` returned `None` (main.rs line 104), or the probe succeeded
and `lookup_ip` failed (line 114), or it succeeded with the given elapsed
latency in ms (line 112). -/
inductive QueryOutcome where
  | tcpFail : QueryOutcome
  | dnsFail : QueryOutcome
  | success : ℚ → QueryOutcome
deriving DecidableEq, Repr

/-- Mutable state of the round/domain loop of `test_dns_speed`
(main.rs lines 92-94): `durations`, `failed_domains`, `total_queries`. -/
structure LoopState where
  durations : List ℚ
  failed_domains : List String
  total_queries : Nat
deriving DecidableEq, Repr

/-- One iteration of the domain loop (main.rs lines 100-117): increment
`total_queries`, then record either a TCP failure, a resolution failure, or a
latency sample, according to the oracle. -/
def stepQuery (oracle : Nat → Nat → QueryOutcome) (round idx : Nat)
    (domain : String) (s : LoopState) : LoopState :=
  let s := { s with total_queries := s.total_queries + 1 }
  match oracle round idx with
  | QueryOutcome.tcpFail =>
      { s with failed_domains := s.failed_domains ++ [domain ++ " (TCP Failed)"] }
  | QueryOutcome.dnsFail =>
      { s with failed_domains := s.failed_domains ++ [domain] }
  | QueryOutcome.success d =>
      { s with durations := s.durations ++ [d] }

/-- The full round/domain loop of `test_dns_speed` (main.rs lines 99-125),
generalized over the plan (round count and domain list; the source fixes
these to `TEST_ROUNDS` and `TEST_DOMAINS`). -/
def runProviderLoop (oracle : Nat → Nat → QueryOutcome) (rounds : Nat)
    (domains : List String) : LoopState :=
  (List.range rounds).foldl
    (fun s round => domains.enum.foldl
      (fun s p => stepQuery oracle round p.1 p.2 s) s)
    ⟨[], [], 0⟩

/-- The aggregation tail of `test_dns_speed` (main.rs lines 127-155):
sort the samples, compute success rate, average, min, max and median
(`durations[durations.len() / 2]`), with the timeout sentinel when no
sample succeeded. -/
def summarize (providerName : String) (durations : List ℚ)
    (failed_domains : List String) (total_queries : Nat) : TestResult :=
  let sorted := durations.insertionSort (· ≤ ·)
  let successful_queries := sorted.length
  let success_rate : ℚ := (successful_queries : ℚ) / (total_queries : ℚ) * 100
  let avg_duration : ℚ :=
    if sorted.isEmpty then timeoutSentinel
    else sorted.sum / (successful_queries : ℚ)
  let min_latency : ℚ := sorted.headD timeoutSentinel
  let max_latency : ℚ := sorted.getLastD timeoutSentinel
  let median_duration : ℚ :=
    if sorted.isEmpty then timeoutSentinel
    else sorted.getD (sorted.length / 2) timeoutSentinel
  { provider := providerName, avg_duration := avg_duration,
    min_latency := min_latency, max_latency := max_latency,
    success_rate := success_rate, failed_domains := failed_domains,
    median_duration := median_duration }

/-- Mirrors `test_dns_speed` (main.rs lines 70-156): run the loop, then
aggregate. -/
def test_dns_speed (oracle : Nat → Nat → QueryOutcome) (provider : DnsProvider)
    (rounds : Nat) (domains : List String) : TestResult :=
  let st := runProviderLoop oracle rounds domains
  summarize provider.name st.durations st.failed_domains st.total_queries

/-- The ranking step of `main` (main.rs line 174):
`results.sort_by(|a, b| a.median_duration.cmp(&b.median_duration))` —
a stable ascending sort by median latency, modelled by insertion sort. -/
def rankResults (results : List TestResult) : List TestResult :=
  results.insertionSort (fun a b => a.median_duration ≤ b.median_duration)

/-- The fastest-provider access of `main` (main.rs line 198):
`results.first()` after sorting. -/
def fastestResult (ranked : List TestResult) : Option TestResult :=
  ranked.head?

/-- The provider loop of `main` (main.rs lines 162-174), generalized over the
provider list and plan: test each provider in order, then rank by median. -/
def runBenchmark (oracle : DnsProvider → Nat → Nat → QueryOutcome)
    (providers : List DnsProvider) (rounds : Nat) (domains : List String) :
    List TestResult :=
  rankResults (providers.map (fun p => test_dns_speed (oracle p) p rounds domains))

/-! ### Event traces for the temporal claim -/

/-- Observable events of one provider test: the start of a (round, domain)
query attempt (the `measure_latency` call, main.rs line 103), the inter-query
pause (`sleep(COOLDOWN_MS)`, line 119), and the inter-round pause
(`sleep(COOLDOWN_MS * 2)`, line 123). -/
inductive Event where
  | attempt : Nat → Nat → Event
  | interQueryPause : Event
  | interRoundPause : Event
deriving DecidableEq, Repr

/-- Events of one (round, domain) iteration (main.rs lines 100-120): the
attempt, then — unless the TCP probe failed, in which case `continue` skips
line 119 — the inter-query pause. -/
def iterEvents (oracle : Nat → Nat → QueryOutcome) (round idx : Nat) :
    List Event :=
  match oracle round idx with
  | QueryOutcome.tcpFail => [Event.attempt round idx]
  | QueryOutcome.dnsFail => [Event.attempt round idx, Event.interQueryPause]
  | QueryOutcome.success _ => [Event.attempt round idx, Event.interQueryPause]

/-- Events of one round: the domain loop, then (main.rs lines 122-124) the
inter-round pause on every round but the last. -/
def roundEvents (oracle : Nat → Nat → QueryOutcome) (rounds round : Nat)
    (domains : List String) : List Event :=
  (List.range domains.length).flatMap (iterEvents oracle round) ++
    (if round < rounds - 1 then [Event.interRoundPause] else [])

/-- Event trace of the whole round loop of `test_dns_speed`
(main.rs lines 99-125). -/
def traceEvents (oracle : Nat → Nat → QueryOutcome) (rounds : Nat)
    (domains : List String) : List Event :=
  (List.range rounds).flatMap (fun r => roundEvents oracle rounds r domains)

/-- Holds (as `true`) iff every `attempt` event in the list other than the
first is preceded by an `interQueryPause` issued since the previous attempt;
`ok` records whether such a pause has occurred since the last attempt
(initially `true`: the first attempt needs no pause before it). -/
def querySeparated : List Event → Bool → Bool
  | [], _ => true
  | Event.attempt _ _ :: rest, ok => ok && querySeparated rest false
  | Event.interQueryPause :: rest, _ => querySeparated rest true
  | Event.interRoundPause :: rest, ok => querySeparated rest ok

/-! ### Helper lemmas: counting samples -/

theorem stepQuery_failed_add_durations (oracle : Nat → Nat → QueryOutcome)
    (r i : Nat) (dm : String) (s : LoopState) :
    (stepQuery oracle r i dm s).failed_domains.length
      + (stepQuery oracle r i dm s).durations.length
      = (s.failed_domains.length + s.durations.length) + 1 := by
  cases h : oracle r i <;> simp [stepQuery, h] <;> omega

theorem stepQuery_total (oracle : Nat → Nat → QueryOutcome)
    (r i : Nat) (dm : String) (s : LoopState) :
    (stepQuery oracle r i dm s).total_queries = s.total_queries + 1 := by
  cases h : oracle r i <;> simp [stepQuery, h]

theorem foldl_count {α β : Type} (g : α → Nat) (f : α → β → α) (k : Nat)
    (hf : ∀ s b, g (f s b) = g s + k) :
    ∀ (l : List β) (s : α), g (l.foldl f s) = g s + k * l.length := by
  intro l
  induction l with
  | nil => intro s; simp
  | cons b t ih =>
      intro s
      rw [List.foldl_cons, ih, hf, List.length_cons]
      ring

theorem runProviderLoop_failed_add_durations (oracle : Nat → Nat → QueryOutcome)
    (rounds : Nat) (domains : List String) :
    (runProviderLoop oracle rounds domains).failed_domains.length
      + (runProviderLoop oracle rounds domains).durations.length
      = rounds * domains.length := by
  have h1 : ∀ (round : Nat) (s : LoopState),
      (fun st : LoopState => st.failed_domains.length + st.durations.length)
        (domains.enum.foldl (fun s p => stepQuery oracle round p.1 p.2 s) s)
      = (fun st : LoopState => st.failed_domains.length + st.durations.length) s
          + domains.length := by
    intro round s
    have h := foldl_count
      (fun st : LoopState => st.failed_domains.length + st.durations.length)
      (fun s p => stepQuery oracle round p.1 p.2 s) 1
      (fun s p => stepQuery_failed_add_durations oracle round p.1 p.2 s)
      domains.enum s
    simpa [List.enum_length] using h
  have h2 := foldl_count
    (fun st : LoopState => st.failed_domains.length + st.durations.length)
    (fun s round => domains.enum.foldl (fun s p => stepQuery oracle round p.1 p.2 s) s)
    domains.length (fun s round => h1 round s) (List.range rounds) ⟨[], [], 0⟩
  simpa [runProviderLoop, List.length_range, Nat.mul_comm] using h2

theorem runProviderLoop_total (oracle : Nat → Nat → QueryOutcome)
    (rounds : Nat) (domains : List String) :
    (runProviderLoop oracle rounds domains).total_queries
      = rounds * domains.length := by
  have h1 : ∀ (round : Nat) (s : LoopState),
      (fun st : LoopState => st.total_queries)
        (domains.enum.foldl (fun s p => stepQuery oracle round p.1 p.2 s) s)
      = (fun st : LoopState => st.total_queries) s + domains.length := by
    intro round s
    have h := foldl_count (fun st : LoopState => st.total_queries)
      (fun s p => stepQuery oracle round p.1 p.2 s) 1
      (fun s p => stepQuery_total oracle round p.1 p.2 s)
      domains.enum s
    simpa [List.enum_length] using h
  have h2 := foldl_count (fun st : LoopState => st.total_queries)
    (fun s round => domains.enum.foldl (fun s p => stepQuery oracle round p.1 p.2 s) s)
    domains.length (fun s round => h1 round s) (List.range rounds) ⟨[], [], 0⟩
  simpa [runProviderLoop, List.length_range, Nat.mul_comm] using h2

/-! ### Helper lemmas: summarize field characterizations -/

theorem summarize_provider (p : String) (d : List ℚ) (f : List String) (t : Nat) :
    (summarize p d f t).provider = p := rfl

theorem summarize_failed (p : String) (d : List ℚ) (f : List String) (t : Nat) :
    (summarize p d f t).failed_domains = f := rfl

theorem summarize_min (p : String) (d : List ℚ) (f : List String) (t : Nat) :
    (summarize p d f t).min_latency
      = (d.insertionSort (· ≤ ·)).headD timeoutSentinel := rfl

theorem summarize_max (p : String) (d : List ℚ) (f : List String) (t : Nat) :
    (summarize p d f t).max_latency
      = (d.insertionSort (· ≤ ·)).getLastD timeoutSentinel := rfl

theorem summarize_median (p : String) (d : List ℚ) (f : List String) (t : Nat) :
    (summarize p d f t).median_duration
      = if (d.insertionSort (· ≤ ·)).isEmpty then timeoutSentinel
        else (d.insertionSort (· ≤ ·)).getD
          ((d.insertionSort (· ≤ ·)).length / 2) timeoutSentinel := rfl

theorem summarize_avg (p : String) (d : List ℚ) (f : List String) (t : Nat) :
    (summarize p d f t).avg_duration
      = if (d.insertionSort (· ≤ ·)).isEmpty then timeoutSentinel
        else (d.insertionSort (· ≤ ·)).sum
          / (((d.insertionSort (· ≤ ·)).length : ℚ)) := rfl

theorem summarize_rate (p : String) (d : List ℚ) (f : List String) (t : Nat) :
    (summarize p d f t).success_rate = (d.length : ℚ) / (t : ℚ) * 100 := by
  show ((d.insertionSort (· ≤ ·)).length : ℚ) / (t : ℚ) * 100 = _
  rw [List.length_insertionSort]

/-- With no successful sample, every latency field is the timeout sentinel and
the success rate is zero. -/
theorem summarize_nil (p : String) (f : List String) (t : Nat) :
    summarize p [] f t
      = ⟨p, timeoutSentinel, timeoutSentinel, timeoutSentinel, 0, f, timeoutSentinel⟩ := by
  simp [summarize]

theorem test_dns_speed_eq (oracle : Nat → Nat → QueryOutcome)
    (provider : DnsProvider) (rounds : Nat) (domains : List String) :
    test_dns_speed oracle provider rounds domains
      = summarize provider.name (runProviderLoop oracle rounds domains).durations
          (runProviderLoop oracle rounds domains).failed_domains
          (runProviderLoop oracle rounds domains).total_queries := rfl

/-- For a non-empty sample list, the summary's min, median and max are entries
of the ascending-sorted sample list at indices `0`, `len / 2` and `len - 1`,
hence `min ≤ median ≤ max`. -/
theorem summarize_bounds (p : String) (d : List ℚ) (f : List String) (t : Nat)
    (hd : d ≠ []) :
    (summarize p d f t).min_latency ≤ (summarize p d f t).median_duration ∧
    (summarize p d f t).median_duration ≤ (summarize p d f t).max_latency := by
  have hpos : 0 < (d.insertionSort (· ≤ ·)).length := by
    rw [List.length_insertionSort]
    exact List.length_pos.mpr hd
  have hne : d.insertionSort (· ≤ ·) ≠ [] := List.length_pos.mp hpos
  have hsorted : (d.insertionSort (· ≤ ·)).Sorted (· ≤ ·) :=
    List.sorted_insertionSort _ d
  have hmid : (d.insertionSort (· ≤ ·)).length / 2 < (d.insertionSort (· ≤ ·)).length :=
    Nat.div_lt_self hpos (by norm_num)
  have hmin : (summarize p d f t).min_latency
      = (d.insertionSort (· ≤ ·)).get ⟨0, hpos⟩ := by
    rw [summarize_min, List.headD_eq_head?, List.head?_eq_head hne]
    simp [List.head_eq_getElem, List.get_eq_getElem]
  have hmax : (summarize p d f t).max_latency
      = (d.insertionSort (· ≤ ·)).get
          ⟨(d.insertionSort (· ≤ ·)).length - 1, by omega⟩ := by
    rw [summarize_max, List.getLastD_eq_getLast?, List.getLast?_eq_getLast_of_ne_nil hne]
    simp [List.getLast_eq_getElem, List.get_eq_getElem]
  have hmed : (summarize p d f t).median_duration
      = (d.insertionSort (· ≤ ·)).get ⟨(d.insertionSort (· ≤ ·)).length / 2, hmid⟩ := by
    rw [summarize_median, if_neg (by simp [hne]),
      List.getD_eq_getElem?_getD, List.getElem?_eq_getElem hmid]
    simp [List.get_eq_getElem]
  rw [hmin, hmed, hmax]
  exact ⟨hsorted.rel_get_of_le (Fin.mk_le_mk.mpr (Nat.zero_le _)),
    hsorted.rel_get_of_le (Fin.mk_le_mk.mpr (by omega))⟩

/-- A zero success rate forces the successful-sample list to be empty (the
total query count equals `rounds * domains.length`; when that is zero the
sample conservation law makes the sample list empty as well). -/
theorem test_rate_zero (oracle : Nat → Nat → QueryOutcome)
    (provider : DnsProvider) (rounds : Nat) (domains : List String)
    (h : (test_dns_speed oracle provider rounds domains).success_rate = 0) :
    (runProviderLoop oracle rounds domains).durations = [] := by
  rw [test_dns_speed_eq, summarize_rate] at h
  rcases mul_eq_zero.mp h with h' | h'
  · rcases div_eq_zero_iff.mp h' with h'' | h''
    · exact List.length_eq_zero.mp (by exact_mod_cast h'')
    · have ht : (runProviderLoop oracle rounds domains).total_queries = 0 := by
        exact_mod_cast h''
      have hc := runProviderLoop_failed_add_durations oracle rounds domains
      have ht2 := runProviderLoop_total oracle rounds domains
      exact List.length_eq_zero.mp (by omega)
  · norm_num at h'

/-! ### Claims -/

/-- C1: whenever a provider summary's success rate is positive (the
successful-sample list is non-empty), `minLatency ≤ medianLatency ≤
maxLatency`; whenever the success rate is zero, the min, median, max and
average latency fields all equal the timeout sentinel (3 s = 3000 ms). -/
theorem C1_latency_bounds_and_sentinel (oracle : Nat → Nat → QueryOutcome)
    (provider : DnsProvider) (rounds : Nat) (domains : List String) :
    (0 < (test_dns_speed oracle provider rounds domains).success_rate →
      (test_dns_speed oracle provider rounds domains).min_latency
          ≤ (test_dns_speed oracle provider rounds domains).median_duration
        ∧ (test_dns_speed oracle provider rounds domains).median_duration
          ≤ (test_dns_speed oracle provider rounds domains).max_latency) ∧
    ((test_dns_speed oracle provider rounds domains).success_rate = 0 →
      (test_dns_speed oracle provider rounds domains).min_latency = timeoutSentinel
        ∧ (test_dns_speed oracle provider rounds domains).median_duration = timeoutSentinel
        ∧ (test_dns_speed oracle provider rounds domains).max_latency = timeoutSentinel
        ∧ (test_dns_speed oracle provider rounds domains).avg_duration = timeoutSentinel) := by
  constructor
  · intro hpos
    have hne : (runProviderLoop oracle rounds domains).durations ≠ [] := by
      intro hnil
      rw [test_dns_speed_eq, hnil, summarize_nil] at hpos
      simp at hpos
    rw [test_dns_speed_eq]
    exact summarize_bounds _ _ _ _ hne
  · intro h0
    have hnil := test_rate_zero oracle provider rounds domains h0
    rw [test_dns_speed_eq, hnil, summarize_nil]
    exact ⟨rfl, rfl, rfl, rfl⟩

theorem C1_witness :
    (test_dns_speed (fun _ _ => QueryOutcome.success 10) ⟨"Google", "8.8.8.8"⟩
        1 ["a.test"]).min_latency
      ≤ (test_dns_speed (fun _ _ => QueryOutcome.success 10) ⟨"Google", "8.8.8.8"⟩
        1 ["a.test"]).median_duration
    ∧ (test_dns_speed (fun _ _ => QueryOutcome.success 10) ⟨"Google", "8.8.8.8"⟩
        1 ["a.test"]).median_duration
      ≤ (test_dns_speed (fun _ _ => QueryOutcome.success 10) ⟨"Google", "8.8.8.8"⟩
        1 ["a.test"]).max_latency :=
  (C1_latency_bounds_and_sentinel (fun _ _ => QueryOutcome.success 10)
    ⟨"Google", "8.8.8.8"⟩ 1 ["a.test"]).1 (by
      rw [test_dns_speed_eq, summarize_rate,
        show (runProviderLoop (fun _ _ => QueryOutcome.success 10)
          1 ["a.test"]).durations = [10] from rfl,
        show (runProviderLoop (fun _ _ => QueryOutcome.success 10)
          1 ["a.test"]).total_queries = 1 from rfl]
      norm_num)

/-- C2: for every provider and plan, the number of recorded failed domains
plus the number of successful latency samples equals `rounds * domains.length`
(each (round, domain) pair yields exactly one sample); the summary's failed
list is exactly the loop's failed list. -/
theorem C2_sample_conservation (oracle : Nat → Nat → QueryOutcome)
    (provider : DnsProvider) (rounds : Nat) (domains : List String) :
    (test_dns_speed oracle provider rounds domains).failed_domains.length
        + (runProviderLoop oracle rounds domains).durations.length
        = rounds * domains.length
      ∧ (test_dns_speed oracle provider rounds domains).failed_domains
        = (runProviderLoop oracle rounds domains).failed_domains := by
  refine ⟨?_, rfl⟩
  rw [test_dns_speed_eq, summarize_failed]
  exact runProviderLoop_failed_add_durations oracle rounds domains

/-- C3: the success rate equals `100 * successfulCount / totalAttempted` with
`totalAttempted = rounds * domains.length`; the loop's attempt counter equals
`rounds * domains.length` for every oracle, so a TCP-unreachable probe failure
still counts as an attempted, failed query. -/
theorem C3_success_rate_formula (oracle : Nat → Nat → QueryOutcome)
    (provider : DnsProvider) (rounds : Nat) (domains : List String)
    (_h : 0 < rounds * domains.length) :
    (test_dns_speed oracle provider rounds domains).success_rate
        = 100 * ((runProviderLoop oracle rounds domains).durations.length : ℚ)
          / ((rounds * domains.length : Nat) : ℚ)
      ∧ (runProviderLoop oracle rounds domains).total_queries
        = rounds * domains.length := by
  refine ⟨?_, runProviderLoop_total oracle rounds domains⟩
  rw [test_dns_speed_eq, summarize_rate, runProviderLoop_total]
  ring

theorem C3_witness :
    0 < 1 * (["a.test"] : List String).length ∧
    (test_dns_speed (fun _ _ => QueryOutcome.dnsFail) ⟨"Google", "8.8.8.8"⟩
        1 ["a.test"]).success_rate
      = 100 * ((runProviderLoop (fun _ _ => QueryOutcome.dnsFail)
          1 ["a.test"]).durations.length : ℚ)
        / ((1 * (["a.test"] : List String).length : Nat) : ℚ) :=
  ⟨by decide,
    (C3_success_rate_formula (fun _ _ => QueryOutcome.dnsFail) ⟨"Google", "8.8.8.8"⟩
      1 ["a.test"] (by decide)).1⟩

/-- C4 counterexample: on the all-successful sample list [10ms, 20ms, 30ms,
40ms] the code's median (`durations[durations.len() / 2]` after the ascending
sort) is 30 ms — the upper of the two middle positions — not 20 ms as the
claim states. -/
theorem C4_counterexample :
    (summarize "A" [10, 20, 30, 40] [] 4).median_duration ≠ 20 := by decide

/-- C4 (amended): summarizing [10ms, 20ms, 30ms, 40ms] (all successful) yields
avg = 25 ms, min = 10 ms, max = 40 ms, successRate = 100, and median = 30 ms —
the upper of the two middle positions, since the code indexes the sorted list
at `len / 2`. -/
theorem C4_even_median_scenario :
    (summarize "A" [10, 20, 30, 40] [] 4).avg_duration = 25
      ∧ (summarize "A" [10, 20, 30, 40] [] 4).min_latency = 10
      ∧ (summarize "A" [10, 20, 30, 40] [] 4).max_latency = 40
      ∧ (summarize "A" [10, 20, 30, 40] [] 4).success_rate = 100
      ∧ (summarize "A" [10, 20, 30, 40] [] 4).median_duration = 30 := by
  have hs : (([10, 20, 30, 40] : List ℚ).insertionSort (· ≤ ·))
      = [10, 20, 30, 40] := by decide
  refine ⟨?_, by decide, by decide, ?_, by decide⟩
  · rw [summarize_avg, hs]
    norm_num
  · rw [summarize_rate]
    norm_num

/-- C10: for every non-empty sample list the computed median is the element at
index `length / 2` (integer division) of the ascending-sorted list — the upper
of the two middle elements for even counts (30 ms for [10,20,30,40]) and the
exact middle for odd counts (20 ms for [10,20,30]). -/
theorem C10_median_index (p : String) (d : List ℚ) (f : List String) (t : Nat)
    (h : d ≠ []) :
    (summarize p d f t).median_duration
        = (d.insertionSort (· ≤ ·)).getD (d.length / 2) 0
      ∧ (summarize "A" [10, 20, 30, 40] [] 4).median_duration = 30
      ∧ (summarize "A" [10, 20, 30] [] 3).median_duration = 20 := by
  refine ⟨?_, by decide, by decide⟩
  have hpos : 0 < (d.insertionSort (· ≤ ·)).length := by
    rw [List.length_insertionSort]
    exact List.length_pos.mpr h
  have hne : d.insertionSort (· ≤ ·) ≠ [] := List.length_pos.mp hpos
  have hmid : d.length / 2 < (d.insertionSort (· ≤ ·)).length := by
    rw [List.length_insertionSort]
    exact Nat.div_lt_self (List.length_pos.mpr h) (by norm_num)
  rw [summarize_median, if_neg (by simp [hne]), List.length_insertionSort,
    List.getD_eq_getElem?_getD, List.getD_eq_getElem?_getD,
    List.getElem?_eq_getElem hmid]
  simp

theorem C10_witness :
    (summarize "B" [7] [] 1).median_duration
        = (([7] : List ℚ).insertionSort (· ≤ ·)).getD ((([7] : List ℚ)).length / 2) 0
      ∧ (summarize "A" [10, 20, 30, 40] [] 4).median_duration = 30
      ∧ (summarize "A" [10, 20, 30] [] 3).median_duration = 20 :=
  C10_median_index "B" [7] [] 1 (by decide)

/-- C9: the aggregator is order-independent and idempotent — summarizing any
permutation of the sample list yields the identical summary record, and
re-running it on the same input yields the identical record (it is a pure
function of its arguments). -/
theorem C9_perm_invariant_idempotent (p : String) (d d' : List ℚ)
    (f : List String) (t : Nat) (h : d.Perm d') :
    summarize p d f t = summarize p d' f t
      ∧ summarize p d f t = summarize p d f t := by
  refine ⟨?_, rfl⟩
  have hs : d.insertionSort (· ≤ ·) = d'.insertionSort (· ≤ ·) :=
    List.eq_of_perm_of_sorted
      ((List.perm_insertionSort _ d).trans (h.trans (List.perm_insertionSort _ d').symm))
      (List.sorted_insertionSort _ d) (List.sorted_insertionSort _ d')
  simp only [summarize, hs]

theorem C9_witness :
    summarize "A" [10, 20] [] 2 = summarize "A" [20, 10] [] 2
      ∧ summarize "A" [10, 20] [] 2 = summarize "A" [10, 20] [] 2 :=
  C9_perm_invariant_idempotent "A" [10, 20] [20, 10] [] 2 (List.Perm.swap 20 10 [])

/-- C8: running the benchmark over an empty provider list yields an empty
ranked list, and the fastest-entry access (`results.first()`) returns `none`
rather than faulting. -/
theorem C8_empty_provider_list (oracle : DnsProvider → Nat → Nat → QueryOutcome)
    (rounds : Nat) (domains : List String) :
    runBenchmark oracle [] rounds domains = []
      ∧ fastestResult (runBenchmark oracle [] rounds domains) = none :=
  ⟨rfl, rfl⟩

theorem enum_map_snd_comp {α β : Type} (l : List α) (f : α → β) :
    l.enum.map (fun p => f p.2) = l.map f := by
  rw [show (fun p : Nat × α => f p.2) = f ∘ Prod.snd from rfl, ← List.map_map,
    List.enum_map_snd]

/-- When every probe in a round fails at the TCP layer, the domain loop
records one annotated failure per domain, in order, and no latency sample. -/
theorem foldl_stepQuery_all_tcpFail (oracle : Nat → Nat → QueryOutcome) (r : Nat)
    (h : ∀ i, oracle r i = QueryOutcome.tcpFail) :
    ∀ (l : List (Nat × String)) (s : LoopState),
      l.foldl (fun s p => stepQuery oracle r p.1 p.2 s) s
        = ⟨s.durations,
            s.failed_domains ++ l.map (fun p => p.2 ++ " (TCP Failed)"),
            s.total_queries + l.length⟩ := by
  intro l
  induction l with
  | nil => intro s; simp
  | cons p tl ih =>
      intro s
      rw [List.foldl_cons, ih]
      simp [stepQuery, h p.1, List.append_assoc]
      omega

/-- The whole loop of a fully TCP-unreachable provider: no samples, every
(round, domain) pair recorded as an annotated failure, all queries counted. -/
theorem runProviderLoop_all_tcpFail (oracle : Nat → Nat → QueryOutcome)
    (rounds : Nat) (domains : List String)
    (h : ∀ r i, oracle r i = QueryOutcome.tcpFail) :
    runProviderLoop oracle rounds domains
      = ⟨[],
          (List.range rounds).flatMap
            (fun _ => domains.map (fun dm => dm ++ " (TCP Failed)")),
          rounds * domains.length⟩ := by
  have hround : ∀ (rs : List Nat) (s : LoopState),
      rs.foldl (fun s round => domains.enum.foldl
          (fun s p => stepQuery oracle round p.1 p.2 s) s) s
        = ⟨s.durations,
            s.failed_domains ++ rs.flatMap
              (fun _ => domains.map (fun dm => dm ++ " (TCP Failed)")),
            s.total_queries + rs.length * domains.length⟩ := by
    intro rs
    induction rs with
    | nil => intro s; simp
    | cons r tl ih =>
        intro s
        rw [List.foldl_cons, foldl_stepQuery_all_tcpFail oracle r (h r), ih]
        simp [List.enum_length, List.append_assoc]
        exact ⟨enum_map_snd_comp domains (fun dm => dm ++ " (TCP Failed)"), by ring⟩
  have hmain := hround (List.range rounds) ⟨[], [], 0⟩
  simpa [runProviderLoop, List.length_range, Nat.mul_comm] using hmain

/-- C7: no query failure aborts a provider's test: a fully TCP-unreachable
provider still produces a complete summary with success rate 0, every
(round, domain) pair listed in `failed_domains` with the `(TCP Failed)`
annotation, and all latency fields equal to the timeout sentinel. -/
theorem C7_unreachable_provider (oracle : Nat → Nat → QueryOutcome)
    (provider : DnsProvider) (rounds : Nat) (domains : List String)
    (h : ∀ r i, oracle r i = QueryOutcome.tcpFail) :
    test_dns_speed oracle provider rounds domains
      = ⟨provider.name, timeoutSentinel, timeoutSentinel, timeoutSentinel, 0,
          (List.range rounds).flatMap
            (fun _ => domains.map (fun dm => dm ++ " (TCP Failed)")),
          timeoutSentinel⟩ := by
  rw [test_dns_speed_eq, runProviderLoop_all_tcpFail oracle rounds domains h]
  exact summarize_nil _ _ _

theorem C7_witness :
    test_dns_speed (fun _ _ => QueryOutcome.tcpFail) ⟨"Google", "8.8.8.8"⟩
        1 ["a.test"]
      = ⟨"Google", timeoutSentinel, timeoutSentinel, timeoutSentinel, 0,
          (List.range 1).flatMap
            (fun _ => (["a.test"] : List String).map (fun dm => dm ++ " (TCP Failed)")),
          timeoutSentinel⟩ :=
  C7_unreachable_provider (fun _ _ => QueryOutcome.tcpFail) ⟨"Google", "8.8.8.8"⟩
    1 ["a.test"] (fun _ _ => rfl)

/-! ### Helper lemmas: the event trace -/

theorem querySeparated_attempt_pause (r i : Nat) (rest : List Event) :
    querySeparated (Event.attempt r i :: Event.interQueryPause :: rest) true
      = querySeparated rest true := rfl

theorem querySeparated_roundPause (rest : List Event) (ok : Bool) :
    querySeparated (Event.interRoundPause :: rest) ok
      = querySeparated rest ok := rfl

theorem iterEvents_of_ne_tcpFail (oracle : Nat → Nat → QueryOutcome) (r i : Nat)
    (h : oracle r i ≠ QueryOutcome.tcpFail) :
    iterEvents oracle r i = [Event.attempt r i, Event.interQueryPause] := by
  cases ho : oracle r i
  · exact absurd ho h
  · simp [iterEvents, ho]
  · simp [iterEvents, ho]

theorem iterEvents_of_tcpFail (oracle : Nat → Nat → QueryOutcome) (r i : Nat)
    (h : oracle r i = QueryOutcome.tcpFail) :
    iterEvents oracle r i = [Event.attempt r i] := by
  simp [iterEvents, h]

theorem querySeparated_flatMap_iter (oracle : Nat → Nat → QueryOutcome) (r : Nat)
    (h : ∀ i, oracle r i ≠ QueryOutcome.tcpFail) :
    ∀ (idxs : List Nat) (rest : List Event),
      querySeparated ((idxs.flatMap (iterEvents oracle r)) ++ rest) true
        = querySeparated rest true := by
  intro idxs
  induction idxs with
  | nil => intro rest; simp
  | cons i tl ih =>
      intro rest
      rw [List.flatMap_cons, List.append_assoc, iterEvents_of_ne_tcpFail oracle r i (h i)]
      simp only [List.cons_append, List.nil_append]
      rw [querySeparated_attempt_pause]
      exact ih rest

theorem querySeparated_roundEvents (oracle : Nat → Nat → QueryOutcome)
    (rounds r : Nat) (domains : List String)
    (h : ∀ i, oracle r i ≠ QueryOutcome.tcpFail) (rest : List Event) :
    querySeparated (roundEvents oracle rounds r domains ++ rest) true
      = querySeparated rest true := by
  unfold roundEvents
  rw [List.append_assoc, querySeparated_flatMap_iter oracle r h]
  by_cases hr : r < rounds - 1
  · rw [if_pos hr]
    simp only [List.cons_append, List.nil_append]
    rw [querySeparated_roundPause]
  · rw [if_neg hr, List.nil_append]

theorem querySeparated_trace_of_no_tcpFail (oracle : Nat → Nat → QueryOutcome)
    (rounds : Nat) (domains : List String)
    (h : ∀ r i, oracle r i ≠ QueryOutcome.tcpFail) :
    querySeparated (traceEvents oracle rounds domains) true = true := by
  have hgen : ∀ (rs : List Nat) (rest : List Event),
      querySeparated ((rs.flatMap (fun r => roundEvents oracle rounds r domains)) ++ rest) true
        = querySeparated rest true := by
    intro rs
    induction rs with
    | nil => intro rest; simp
    | cons r tl ih =>
        intro rest
        rw [List.flatMap_cons, List.append_assoc,
          querySeparated_roundEvents oracle rounds r domains (h r)]
        exact ih rest
  have hmain := hgen (List.range rounds) []
  simpa [traceEvents] using hmain

/-- C5 counterexample: with two domains whose probes both fail at the TCP
layer (`continue` at main.rs line 106), the trace contains two adjacent query
attempts with no inter-query pause between them — the claimed invariant is
false for TCP-unreachable outcomes. -/
theorem C5_counterexample :
    querySeparated
        (traceEvents (fun _ _ => QueryOutcome.tcpFail) 1 ["a.test", "b.test"]) true
      = false := by decide

/-- C5 (amended): after a successful resolution or a resolution error the
inter-query pause executes before the next domain is attempted (so if no TCP
probe failure occurs, consecutive attempts are always separated by the
pause); after a TCP-unreachable probe failure the loop advances directly to
the next domain, skipping the pause. -/
theorem C5_pause_discipline :
    (∀ (oracle : Nat → Nat → QueryOutcome) (rounds : Nat) (domains : List String),
        (∀ r i, oracle r i ≠ QueryOutcome.tcpFail) →
        querySeparated (traceEvents oracle rounds domains) true = true)
      ∧ (∀ (oracle : Nat → Nat → QueryOutcome) (r i : Nat),
          oracle r i ≠ QueryOutcome.tcpFail →
          iterEvents oracle r i = [Event.attempt r i, Event.interQueryPause])
      ∧ (∀ (oracle : Nat → Nat → QueryOutcome) (r i : Nat),
          oracle r i = QueryOutcome.tcpFail →
          iterEvents oracle r i = [Event.attempt r i]) :=
  ⟨querySeparated_trace_of_no_tcpFail, iterEvents_of_ne_tcpFail, iterEvents_of_tcpFail⟩

theorem C5_witness :
    querySeparated
        (traceEvents (fun _ _ => QueryOutcome.dnsFail) 2 ["a.test", "b.test"]) true
      = true :=
  C5_pause_discipline.1 (fun _ _ => QueryOutcome.dnsFail) 2 ["a.test", "b.test"]
    (fun _ _ h => QueryOutcome.noConfusion h)

/-! ### Helper lemmas: ranking -/

instance instIsTotalMedianLe :
    IsTotal TestResult (fun a b => a.median_duration ≤ b.median_duration) :=
  ⟨fun a b => le_total a.median_duration b.median_duration⟩

instance instIsTransMedianLe :
    IsTrans TestResult (fun a b => a.median_duration ≤ b.median_duration) :=
  ⟨fun _ _ _ hab hbc => le_trans hab hbc⟩

/-- Inserting into a list only ever skips elements whose key is strictly
smaller, so the elements carrying any fixed key value keep their relative
order: filtering by an exact key commutes with `orderedInsert`. -/
theorem filter_median_orderedInsert (m : ℚ) (a : TestResult) (L : List TestResult) :
    (List.orderedInsert (fun x y : TestResult => x.median_duration ≤ y.median_duration)
        a L).filter (fun r => decide (r.median_duration = m))
      = if a.median_duration = m
        then a :: L.filter (fun r => decide (r.median_duration = m))
        else L.filter (fun r => decide (r.median_duration = m)) := by
  induction L with
  | nil => by_cases hpa : a.median_duration = m <;> simp [List.orderedInsert, hpa]
  | cons b tl ih =>
      by_cases hab : a.median_duration ≤ b.median_duration
      · have hoi : List.orderedInsert
            (fun x y : TestResult => x.median_duration ≤ y.median_duration) a (b :: tl)
            = a :: b :: tl := by simp [List.orderedInsert, hab]
        rw [hoi]
        by_cases hpa : a.median_duration = m <;>
          by_cases hpb : b.median_duration = m <;>
            simp [List.filter_cons, hpa, hpb]
      · have hoi : List.orderedInsert
            (fun x y : TestResult => x.median_duration ≤ y.median_duration) a (b :: tl)
            = b :: List.orderedInsert
                (fun x y : TestResult => x.median_duration ≤ y.median_duration) a tl := by
          simp [List.orderedInsert, hab]
        rw [hoi]
        have hba : b.median_duration < a.median_duration := lt_of_not_le hab
        by_cases hpa : a.median_duration = m
        · have hpb : ¬ b.median_duration = m := by
            rw [← hpa]
            exact ne_of_lt hba
          simp [List.filter_cons, hpb, ih, hpa]
        · by_cases hpb : b.median_duration = m <;>
            simp [List.filter_cons, hpb, ih, hpa]

/-- Stability of the ranking sort: filtering by an exact median value yields
the same sublist before and after sorting, i.e. ties are broken by original
order. -/
theorem filter_median_insertionSort (m : ℚ) (l : List TestResult) :
    (l.insertionSort (fun a b => a.median_duration ≤ b.median_duration)).filter
        (fun r => decide (r.median_duration = m))
      = l.filter (fun r => decide (r.median_duration = m)) := by
  induction l with
  | nil => rfl
  | cons a tl ih =>
      rw [List.insertionSort, filter_median_orderedInsert, ih]
      by_cases hpa : a.median_duration = m <;> simp [List.filter_cons, hpa]

/-- A summary with every latency field 20 ms (provider "A"). -/
def resultA : TestResult := ⟨"A", 20, 20, 20, 100, [], 20⟩

/-- A summary with every latency field 15 ms (provider "B"). -/
def resultB : TestResult := ⟨"B", 15, 15, 15, 100, [], 15⟩

/-- C6: the summary list is sorted ascending by median latency; for summaries
A (median 20 ms) listed before B (median 15 ms), the ranked output places B
first and the fastest entry is B; and elements whose ranking keys are exactly
equal keep their original relative order (stable sort). -/
theorem C6_ranked_by_median (rs : List TestResult) (m : ℚ) :
    (rankResults rs).Sorted (fun a b => a.median_duration ≤ b.median_duration)
      ∧ rankResults [resultA, resultB] = [resultB, resultA]
      ∧ fastestResult (rankResults [resultA, resultB]) = some resultB
      ∧ (rankResults rs).filter (fun r => decide (r.median_duration = m))
        = rs.filter (fun r => decide (r.median_duration = m)) := by
  refine ⟨List.sorted_insertionSort _ rs, ?_, ?_, filter_median_insertionSort m rs⟩
  · decide
  · decide

end DnsSpeedTest
